import Mathlib

/-!
# Broker reconciliation (controllers/broker_controller.go)

A shallow embedding of `BrokerReconciler.Reconcile`.  The procedure talks to
six external collaborators (the store read `r.Client.Get`, the classifier
`apierrors.IsNotFound`, the factory `kubernetes.NewForConfig` and the four
ensure steps).  They are parameters of the model: a record of functions over
an arbitrary cluster state `σ`.  Every invocation of a collaborator that can
act on the cluster is appended to a call log, so that "which steps ran, in
which order, with which arguments" is a statement about a list.
-/

namespace BrokerController

/-! ## Error values -/

/-- Go `error` values that are not nil.  `leaf` is any error produced by a
collaborator; `withMessage` and `withStack` are the two wrappers of
github.com/pkg/errors (the recorded program counters of `withStack` are left
out).  The nil error is `none : Option GoError`. -/
inductive GoError where
  | leaf (text : String)
  | withMessage (cause : GoError) (msg : String)
  | withStack (err : GoError)
deriving DecidableEq

namespace GoError

/-- The `Error()` method: a `withMessage` prints its message, a colon and the
cause; a `withStack` prints what it holds. -/
def Error : GoError → String
  | leaf text => text
  | withMessage cause msg => msg ++ ": " ++ Error cause
  | withStack err => Error err

/-- The `Unwrap()` method of the two wrappers (`errors.Unwrap` gives nil on
anything else). -/
def Unwrap : GoError → Option GoError
  | leaf _ => none
  | withMessage cause _ => some cause
  | withStack err => some err

/-- `errors.Cause`: follow `Cause()` until an error that has none. -/
def Cause : GoError → GoError
  | leaf text => leaf text
  | withMessage cause _ => Cause cause
  | withStack err => Cause err

end GoError

/-- `errors.Wrap(err, message)` of github.com/pkg/errors: nil stays nil,
anything else is annotated with the message and then with a stack. -/
def Wrap (err : Option GoError) (message : String) : Option GoError :=
  match err with
  | none => none
  | some e => some (GoError.withStack (GoError.withMessage e message))

/-! ## Data model -/

/-- `types.NamespacedName`. -/
structure NamespacedName where
  Namespace : String
  Name : String
deriving DecidableEq

/-- `ctrl.Request`: nothing but the embedded `NamespacedName`, so that
`request.Namespace` is `request.NamespacedName.Namespace`. -/
structure Request where
  NamespacedName : NamespacedName
deriving DecidableEq

/-- `ctrl.Result` (= `reconcile.Result`); `Result{}` is `{}` here. -/
structure Result where
  Requeue : Bool := false
  RequeueAfter : Int := 0
deriving DecidableEq

/-- Modelled from the spec: the part of `metav1.ObjectMeta` that Reconcile
reads, the deletion marker ("timestamp-or-absent"), as seconds. -/
structure ObjectMeta where
  DeletionTimestamp : Option Int := none
deriving DecidableEq

/-- Modelled from the spec: the fields of `v1alpha1.BrokerSpec` that Reconcile
reads (`globalnetEnabled: bool`, `globalnetCIDRRange: string`,
`defaultGlobalnetClusterSize: integer`). -/
structure BrokerSpec where
  GlobalnetEnabled : Bool := false
  GlobalnetCIDRRange : String := ""
  DefaultGlobalnetClusterSize : Int := 0
deriving DecidableEq

/-- Modelled from the spec: `v1alpha1.Broker`, the desired-state object. -/
structure Broker where
  ObjectMeta : ObjectMeta := {}
  Spec : BrokerSpec := {}
deriving DecidableEq

/-- Modelled from the spec: the role argument of `lighthouse.Ensure`;
Reconcile passes `lighthouse.BrokerCluster`. -/
inductive Role where
  | DataCluster
  | BrokerCluster
deriving DecidableEq

/-- Modelled from the spec: a `client.Client` capability, known by identity. -/
structure Client where
  id : Nat
deriving DecidableEq

/-- Modelled from the spec: a `*rest.Config`, known by identity. -/
structure RestConfig where
  id : Nat
deriving DecidableEq

/-- Modelled from the spec: a `*runtime.Scheme`, known by identity. -/
structure Scheme where
  id : Nat
deriving DecidableEq

/-- Modelled from the spec: a `logr.Logger`, known by identity. -/
structure Logger where
  id : Nat
deriving DecidableEq

/-- Modelled from the spec: a `context.Context`, known by identity. -/
structure Context where
  id : Nat
deriving DecidableEq

/-- Modelled from the spec: the `*kubernetes.Clientset` that
`kubernetes.NewForConfig` builds, known by identity. -/
structure Clientset where
  id : Nat
deriving DecidableEq

/-- Modelled from the spec: the `crd.Updater` capability; it is built from a
controller client and holds it. -/
structure Updater where
  client : Client
deriving DecidableEq

/-- `crd.UpdaterFromControllerClient`: a pure adapter around the client. -/
def UpdaterFromControllerClient (c : Client) : Updater := ⟨c⟩

/-- `BrokerReconciler`: the embedded `client.Client` and the three named
fields. -/
structure BrokerReconciler where
  Client : Client
  Scheme : Scheme
  Config : RestConfig
  Log : Logger
deriving DecidableEq

/-! ## Collaborators, call log, world -/

/-- One collaborator invocation with the arguments Reconcile passed. -/
inductive Call where
  | Get (c : Client) (ctx : Context) (key : NamespacedName)
  | NewForConfig (cfg : RestConfig)
  | gatewayEnsure (u : Updater)
  | lighthouseEnsure (u : Updater) (role : Role)
  | ValidateExistingGlobalNetworks (k : Clientset) (ns : String)
  | CreateConfigMap (k : Clientset) (enabled : Bool) (cidr : String) (size : Int) (ns : String)
deriving DecidableEq

/-- Whether a logged call is one of the four ensure steps. -/
def Call.isEnsureStep : Call → Bool
  | Call.Get _ _ _ => false
  | Call.NewForConfig _ => false
  | Call.gatewayEnsure _ => true
  | Call.lighthouseEnsure _ _ => true
  | Call.ValidateExistingGlobalNetworks _ _ => true
  | Call.CreateConfigMap _ _ _ _ _ => true

/-- The external procedures Reconcile calls, over a cluster state `σ`.
`Get` reads the store; `NewForConfig` depends on the configuration only; each
ensure step may change the cluster and reports a nil or non-nil error
(`lighthouse.Ensure` also reports a boolean that Reconcile discards). -/
structure Collaborators (σ : Type) where
  Get : Client → Context → NamespacedName → σ → Except GoError Broker
  IsNotFound : GoError → Bool
  NewForConfig : RestConfig → Except GoError Clientset
  gatewayEnsure : Updater → σ → σ × Option GoError
  lighthouseEnsure : Updater → Role → σ → σ × Bool × Option GoError
  ValidateExistingGlobalNetworks : Clientset → String → σ → σ × Option GoError
  CreateConfigMap : Clientset → Bool → String → Int → String → σ → σ × Option GoError

/-- Cluster state together with the log of collaborator calls made so far. -/
structure World (σ : Type) where
  cluster : σ
  calls : List Call
deriving DecidableEq

/-- Append one call to the log. -/
def World.record {σ : Type} (w : World σ) (c : Call) : World σ :=
  { w with calls := w.calls ++ [c] }

/-- Replace the cluster state, keeping the log. -/
def World.setCluster {σ : Type} (w : World σ) (s : σ) : World σ :=
  { w with cluster := s }

/-- What one invocation of Reconcile leaves behind: the world, the receiver
(Reconcile has a pointer receiver), and the two returned values. -/
structure Outcome (σ : Type) where
  world : World σ
  receiver : BrokerReconciler
  result : Result
  err : Option GoError
deriving DecidableEq

/-- The outcome `Done`: the empty Result and a nil error. -/
def Outcome.Done {σ : Type} (o : Outcome σ) : Prop :=
  o.result = {} ∧ o.err = none

/-! ## Reconcile -/

/-- `BrokerReconciler.Reconcile`.  The two discarded logger expressions at the
top of the Go function have no effect and are not modelled. -/
def Reconcile {σ : Type} (C : Collaborators σ) (r : BrokerReconciler) (ctx : Context)
    (request : Request) (w : World σ) : Outcome σ :=
  let w := w.record (Call.Get r.Client ctx request.NamespacedName)
  match C.Get r.Client ctx request.NamespacedName w.cluster with
  | Except.error err =>
    if C.IsNotFound err then
      ⟨w, r, {}, none⟩
    else
      ⟨w, r, {}, Wrap (some err) "error retrieving Broker resource"⟩
  | Except.ok inst =>
    if inst.ObjectMeta.DeletionTimestamp ≠ none then
      ⟨w, r, {}, none⟩
    else
      let w := w.record (Call.NewForConfig r.Config)
      match C.NewForConfig r.Config with
      | Except.error err => ⟨w, r, {}, Wrap (some err) "error creating kube client"⟩
      | Except.ok kubeClient =>
        let crdUpdater := UpdaterFromControllerClient r.Client
        let w := w.record (Call.gatewayEnsure crdUpdater)
        match C.gatewayEnsure crdUpdater w.cluster with
        | (s, some err) => ⟨w.setCluster s, r, {}, some err⟩
        | (s, none) =>
          let w := (w.setCluster s).record (Call.lighthouseEnsure crdUpdater Role.BrokerCluster)
          match C.lighthouseEnsure crdUpdater Role.BrokerCluster w.cluster with
          | (s, _, some err) => ⟨w.setCluster s, r, {}, some err⟩
          | (s, _, none) =>
            let w := (w.setCluster s).record
              (Call.ValidateExistingGlobalNetworks kubeClient request.NamespacedName.Namespace)
            match C.ValidateExistingGlobalNetworks kubeClient
                request.NamespacedName.Namespace w.cluster with
            | (s, some err) => ⟨w.setCluster s, r, {}, some err⟩
            | (s, none) =>
              let w := (w.setCluster s).record
                (Call.CreateConfigMap kubeClient inst.Spec.GlobalnetEnabled
                  inst.Spec.GlobalnetCIDRRange inst.Spec.DefaultGlobalnetClusterSize
                  request.NamespacedName.Namespace)
              match C.CreateConfigMap kubeClient inst.Spec.GlobalnetEnabled
                  inst.Spec.GlobalnetCIDRRange inst.Spec.DefaultGlobalnetClusterSize
                  request.NamespacedName.Namespace w.cluster with
              | (s, some err) => ⟨w.setCluster s, r, {}, some err⟩
              | (s, none) => ⟨w.setCluster s, r, {}, none⟩

/-! ## Concrete collaborators -/

/-- A scripted test double over a cluster state that is a list of marks.  The
fetch result, its NotFound classification, the client-construction result and
the error of each ensure step are given; an ensure step that runs leaves its
mark on the cluster. -/
def scripted (fetch : Except GoError Broker) (notFound : Bool)
    (client : Except GoError Clientset) (e₁ e₂ e₃ e₄ : Option GoError) :
    Collaborators (List Nat) where
  Get := fun _ _ _ _ => fetch
  IsNotFound := fun _ => notFound
  NewForConfig := fun _ => client
  gatewayEnsure := fun _ s => (s ++ [1], e₁)
  lighthouseEnsure := fun _ _ s => (s ++ [2], true, e₂)
  ValidateExistingGlobalNetworks := fun _ _ s => (s ++ [3], e₃)
  CreateConfigMap := fun _ _ _ _ _ s => (s ++ [4], e₄)

/-- The reconciler used in the concrete runs. -/
def demoReconciler : BrokerReconciler := ⟨⟨1⟩, ⟨2⟩, ⟨3⟩, ⟨4⟩⟩

/-- The context used in the concrete runs. -/
def demoContext : Context := ⟨0⟩

/-- The request used in the concrete runs. -/
def demoRequest : Request := ⟨⟨"submariner-k8s-broker", "broker"⟩⟩

/-- The Broker of the full-success scenario. -/
def demoBroker : Broker :=
  { ObjectMeta := { DeletionTimestamp := none },
    Spec := { GlobalnetEnabled := true, GlobalnetCIDRRange := "242.0.0.0/16",
              DefaultGlobalnetClusterSize := 0 } }

/-- The same Broker with a deletion marker. -/
def deletedBroker : Broker :=
  { demoBroker with ObjectMeta := { DeletionTimestamp := some 1650000000 } }

/-- The client that the scripted factory builds. -/
def demoClientset : Clientset := ⟨7⟩

/-- An empty cluster with an empty call log. -/
def emptyWorld : World (List Nat) := ⟨[], []⟩

/-- Some collaborator error. -/
def boom : GoError := GoError.leaf "connection refused"

/-! ## Ensure steps as state transformers -/

/-- An ensure step as Reconcile sees it: it may change the cluster and it
reports a nil or non-nil error. -/
abbrev Step (σ : Type) := σ → σ × Option GoError

/-- The call `gateway.Ensure(crdUpdater)` of Reconcile. -/
def gatewayStep {σ : Type} (C : Collaborators σ) (r : BrokerReconciler) : Step σ :=
  C.gatewayEnsure (UpdaterFromControllerClient r.Client)

/-- The call `lighthouse.Ensure(crdUpdater, lighthouse.BrokerCluster)` of
Reconcile, its boolean discarded. -/
def lighthouseStep {σ : Type} (C : Collaborators σ) (r : BrokerReconciler) : Step σ :=
  fun s =>
    ((C.lighthouseEnsure (UpdaterFromControllerClient r.Client) Role.BrokerCluster s).1,
     (C.lighthouseEnsure (UpdaterFromControllerClient r.Client) Role.BrokerCluster s).2.2)

/-- The call `globalnet.ValidateExistingGlobalNetworks(kubeClient,
request.Namespace)` of Reconcile. -/
def validateStep {σ : Type} (C : Collaborators σ) (kubeClient : Clientset) (request : Request) :
    Step σ :=
  C.ValidateExistingGlobalNetworks kubeClient request.NamespacedName.Namespace

/-- The call `globalnet.CreateConfigMap(kubeClient, ...)` of Reconcile. -/
def configMapStep {σ : Type} (C : Collaborators σ) (kubeClient : Clientset) (inst : Broker)
    (request : Request) : Step σ :=
  C.CreateConfigMap kubeClient inst.Spec.GlobalnetEnabled inst.Spec.GlobalnetCIDRRange
    inst.Spec.DefaultGlobalnetClusterSize request.NamespacedName.Namespace

/-- The four ensure calls of Reconcile in source order. -/
def ensureSteps {σ : Type} (C : Collaborators σ) (r : BrokerReconciler) (kubeClient : Clientset)
    (inst : Broker) (request : Request) : List (Step σ) :=
  [gatewayStep C r, lighthouseStep C r, validateStep C kubeClient request,
   configMapStep C kubeClient inst request]

/-- The errors a sequence of steps reports when run in order from `s`, each on
the state the previous one left, up to and including the first non-nil one. -/
def stepOutcomes {σ : Type} : List (Step σ) → σ → List (Option GoError)
  | [], _ => []
  | f :: fs, s =>
    match f s with
    | (s₁, none) => none :: stepOutcomes fs s₁
    | (_, some e) => [some e]

/-- A step is converged at `s`: it succeeds there and changes nothing. -/
def Converged {σ : Type} (f : Step σ) (s : σ) : Prop := f s = (s, none)

/-- A step is idempotent: re-running it on the state a successful run of it
left succeeds and changes nothing. -/
def Idempotent {σ : Type} (f : Step σ) : Prop :=
  ∀ s s₁, f s = (s₁, none) → Converged f s₁

/-- A successful run of `g` keeps `f` converged. -/
def Keeps {σ : Type} (f g : Step σ) : Prop :=
  ∀ s s₁, g s = (s₁, none) → Converged f s → Converged f s₁

/-- Collaborators whose ensure steps never fail and are each idempotent, but
disturb one another: the cluster is a flag and a counter of created
resources; gateway.Ensure clears the flag, lighthouse.Ensure creates a
resource and sets the flag when it finds the flag cleared. -/
def clashing : Collaborators (Bool × Nat) where
  Get := fun _ _ _ _ => Except.ok demoBroker
  IsNotFound := fun _ => false
  NewForConfig := fun _ => Except.ok demoClientset
  gatewayEnsure := fun _ s => ((false, s.2), none)
  lighthouseEnsure := fun _ _ s => (if s.1 then s else (true, s.2 + 1), true, none)
  ValidateExistingGlobalNetworks := fun _ _ s => (s, none)
  CreateConfigMap := fun _ _ _ _ _ s => (s, none)

/-- The four ensure calls as they appear in the log, in source order. -/
def ensureCalls (r : BrokerReconciler) (kubeClient : Clientset) (inst : Broker)
    (request : Request) : List Call :=
  [Call.gatewayEnsure (UpdaterFromControllerClient r.Client),
   Call.lighthouseEnsure (UpdaterFromControllerClient r.Client) Role.BrokerCluster,
   Call.ValidateExistingGlobalNetworks kubeClient request.NamespacedName.Namespace,
   Call.CreateConfigMap kubeClient inst.Spec.GlobalnetEnabled inst.Spec.GlobalnetCIDRRange
     inst.Spec.DefaultGlobalnetClusterSize request.NamespacedName.Namespace]

/-- A create-or-no-op step on a cluster that is a list of resources: resource
`i` is appended when it is absent. -/
def createIfAbsent (i : Nat) : Step (List Nat) :=
  fun s => (if i ∈ s then s else s ++ [i], none)

/-- Collaborators whose four ensure steps are create-or-no-op on four distinct
resources. -/
def converging : Collaborators (List Nat) where
  Get := fun _ _ _ _ => Except.ok demoBroker
  IsNotFound := fun _ => false
  NewForConfig := fun _ => Except.ok demoClientset
  gatewayEnsure := fun _ s => createIfAbsent 1 s
  lighthouseEnsure := fun _ _ s => ((createIfAbsent 2 s).1, true, (createIfAbsent 2 s).2)
  ValidateExistingGlobalNetworks := fun _ _ s => createIfAbsent 3 s
  CreateConfigMap := fun _ _ _ _ _ s => createIfAbsent 4 s

/-! ## Fetch, deletion marker, client construction -/

/-- C4 (not-found is not an error): when `Get` fails with an error that
`IsNotFound` accepts, Reconcile returns the empty Result (no requeue) and a nil
error, the only collaborator call is the `Get` itself (no client construction,
no ensure step), and the cluster and the receiver are untouched. -/
theorem reconcile_not_found {σ : Type} (C : Collaborators σ) (r : BrokerReconciler)
    (ctx : Context) (request : Request) (w : World σ) (e : GoError)
    (hGet : C.Get r.Client ctx request.NamespacedName w.cluster = Except.error e)
    (hNotFound : C.IsNotFound e = true) :
    (Reconcile C r ctx request w).Done ∧
    (Reconcile C r ctx request w).result.Requeue = false ∧
    (Reconcile C r ctx request w).result.RequeueAfter = 0 ∧
    (Reconcile C r ctx request w).world.calls
      = w.calls ++ [Call.Get r.Client ctx request.NamespacedName] ∧
    (Reconcile C r ctx request w).world.cluster = w.cluster := by
  simp [Reconcile, World.record, Outcome.Done, hGet, hNotFound]

/-- C4 at a concrete input: the store answers NotFound while every other
collaborator is set to fail. -/
theorem reconcile_not_found_witness :
    (Reconcile (scripted (Except.error boom) true (Except.error boom) boom boom boom boom)
        demoReconciler demoContext demoRequest emptyWorld).Done ∧
    (Reconcile (scripted (Except.error boom) true (Except.error boom) boom boom boom boom)
        demoReconciler demoContext demoRequest emptyWorld).world.calls
      = [Call.Get ⟨1⟩ demoContext demoRequest.NamespacedName] :=
  have h := reconcile_not_found
    (scripted (Except.error boom) true (Except.error boom) boom boom boom boom)
    demoReconciler demoContext demoRequest emptyWorld boom rfl rfl
  ⟨h.1, h.2.2.2.1⟩

/-- C5 (fetch failure): when `Get` fails with an error that `IsNotFound`
rejects, Reconcile returns the empty Result and the non-nil error
`Wrap(err, "error retrieving Broker resource")`: unwrapping it twice gives back
the error of `Get`, its `Cause` is the cause of that error, and its text is the
context, a colon and the text of that error.  The only collaborator call is the
`Get`; the cluster is untouched. -/
theorem reconcile_fetch_failure {σ : Type} (C : Collaborators σ) (r : BrokerReconciler)
    (ctx : Context) (request : Request) (w : World σ) (e : GoError)
    (hGet : C.Get r.Client ctx request.NamespacedName w.cluster = Except.error e)
    (hOther : C.IsNotFound e = false) :
    ∃ ret : GoError,
      (Reconcile C r ctx request w).err = some ret ∧
      some ret = Wrap (some e) "error retrieving Broker resource" ∧
      (ret.Unwrap.bind GoError.Unwrap) = some e ∧
      ret.Cause = e.Cause ∧
      ret.Error = "error retrieving Broker resource" ++ ": " ++ e.Error ∧
      (Reconcile C r ctx request w).result = {} ∧
      (Reconcile C r ctx request w).world.calls
        = w.calls ++ [Call.Get r.Client ctx request.NamespacedName] ∧
      (Reconcile C r ctx request w).world.cluster = w.cluster := by
  refine ⟨GoError.withStack (GoError.withMessage e "error retrieving Broker resource"), ?_⟩
  simp [Reconcile, World.record, Wrap, GoError.Unwrap, GoError.Cause, GoError.Error, hGet,
    hOther]

/-- C5 at a concrete input: the store is unreachable. -/
theorem reconcile_fetch_failure_witness :
    ∃ ret : GoError,
      (Reconcile (scripted (Except.error boom) false (Except.ok demoClientset) none none none none)
        demoReconciler demoContext demoRequest emptyWorld).err = some ret ∧
      ret.Error = "error retrieving Broker resource: connection refused" ∧
      ret.Cause = boom :=
  match reconcile_fetch_failure
    (scripted (Except.error boom) false (Except.ok demoClientset) none none none none)
    demoReconciler demoContext demoRequest emptyWorld boom rfl rfl with
  | ⟨ret, h₁, _, _, h₄, h₅, _⟩ => ⟨ret, h₁, by rw [h₅]; rfl, by rw [h₄]; rfl⟩

/-- C2 (deletion short-circuit): when the fetched Broker has a deletion
marker, Reconcile returns Done, whatever the other collaborators are; the only
collaborator call is the `Get` (the client is not constructed and no ensure
step runs) and the cluster is untouched. -/
theorem reconcile_deletion_short_circuit {σ : Type} (C : Collaborators σ)
    (r : BrokerReconciler) (ctx : Context) (request : Request) (w : World σ) (inst : Broker)
    (hGet : C.Get r.Client ctx request.NamespacedName w.cluster = Except.ok inst)
    (hDel : inst.ObjectMeta.DeletionTimestamp ≠ none) :
    (Reconcile C r ctx request w).Done ∧
    (Reconcile C r ctx request w).world.calls
      = w.calls ++ [Call.Get r.Client ctx request.NamespacedName] ∧
    (Reconcile C r ctx request w).world.calls.filter Call.isEnsureStep
      = w.calls.filter Call.isEnsureStep ∧
    Call.NewForConfig r.Config ∉ (Reconcile C r ctx request w).world.calls.drop w.calls.length ∧
    (Reconcile C r ctx request w).world.cluster = w.cluster := by
  simp [Reconcile, World.record, Outcome.Done, hGet, hDel, Call.isEnsureStep]

/-- C2 at a concrete input: a Broker pending deletion while the client factory
and all four ensure steps are set to fail. -/
theorem reconcile_deletion_short_circuit_witness :
    (Reconcile (scripted (Except.ok deletedBroker) false (Except.error boom) boom boom boom boom)
        demoReconciler demoContext demoRequest emptyWorld).Done ∧
    (Reconcile (scripted (Except.ok deletedBroker) false (Except.error boom) boom boom boom boom)
        demoReconciler demoContext demoRequest emptyWorld).world.calls
      = [Call.Get ⟨1⟩ demoContext demoRequest.NamespacedName] :=
  have h := reconcile_deletion_short_circuit
    (scripted (Except.ok deletedBroker) false (Except.error boom) boom boom boom boom)
    demoReconciler demoContext demoRequest emptyWorld deletedBroker rfl (by decide)
  ⟨h.1, h.2.1⟩

/-- C6 (client construction failure): when the Broker is fetched without a
deletion marker and `NewForConfig` fails, Reconcile returns the empty Result
and the non-nil error `Wrap(err, "error creating kube client")`, whose double
unwrapping is the factory error; the collaborator calls are the `Get` and the
`NewForConfig` only, so no ensure step runs, and the cluster is untouched. -/
theorem reconcile_client_failure {σ : Type} (C : Collaborators σ) (r : BrokerReconciler)
    (ctx : Context) (request : Request) (w : World σ) (inst : Broker) (e : GoError)
    (hGet : C.Get r.Client ctx request.NamespacedName w.cluster = Except.ok inst)
    (hLive : inst.ObjectMeta.DeletionTimestamp = none)
    (hClient : C.NewForConfig r.Config = Except.error e) :
    ∃ ret : GoError,
      (Reconcile C r ctx request w).err = some ret ∧
      some ret = Wrap (some e) "error creating kube client" ∧
      (ret.Unwrap.bind GoError.Unwrap) = some e ∧
      ret.Cause = e.Cause ∧
      ret.Error = "error creating kube client" ++ ": " ++ e.Error ∧
      (Reconcile C r ctx request w).result = {} ∧
      (Reconcile C r ctx request w).world.calls
        = w.calls ++ [Call.Get r.Client ctx request.NamespacedName, Call.NewForConfig r.Config] ∧
      (Reconcile C r ctx request w).world.calls.filter Call.isEnsureStep
        = w.calls.filter Call.isEnsureStep ∧
      (Reconcile C r ctx request w).world.cluster = w.cluster := by
  refine ⟨GoError.withStack (GoError.withMessage e "error creating kube client"), ?_⟩
  simp [Reconcile, World.record, Wrap, GoError.Unwrap, GoError.Cause, GoError.Error, hGet,
    hLive, hClient, Call.isEnsureStep]

/-- C6 at a concrete input: the factory fails on a live Broker. -/
theorem reconcile_client_failure_witness :
    ∃ ret : GoError,
      (Reconcile (scripted (Except.ok demoBroker) false (Except.error boom) none none none none)
        demoReconciler demoContext demoRequest emptyWorld).err = some ret ∧
      ret.Error = "error creating kube client: connection refused" ∧
      (Reconcile (scripted (Except.ok demoBroker) false (Except.error boom) none none none none)
        demoReconciler demoContext demoRequest emptyWorld).world.calls
        = [Call.Get ⟨1⟩ demoContext demoRequest.NamespacedName, Call.NewForConfig ⟨3⟩] :=
  match reconcile_client_failure
    (scripted (Except.ok demoBroker) false (Except.error boom) none none none none)
    demoReconciler demoContext demoRequest emptyWorld demoBroker boom rfl rfl rfl with
  | ⟨ret, h₁, _, _, _, h₅, _, h₇, _⟩ => ⟨ret, h₁, by rw [h₅]; rfl, h₇⟩

/-! ## The ordered ensure sequence -/

/-- C1 (ordered short-circuit): on a Broker fetched without a deletion marker
and with the client constructed, if step k is the first of gateway.Ensure,
lighthouse.Ensure, ValidateExistingGlobalNetworks, CreateConfigMap to report
an error, Reconcile has called steps 1..k, once each and in that order, and
nothing after them, and its error is the very value step k reported (one
conjunct for each k). -/
theorem reconcile_ordered_short_circuit {σ : Type} (C : Collaborators σ)
    (r : BrokerReconciler) (ctx : Context) (request : Request) (w : World σ) (inst : Broker)
    (kubeClient : Clientset)
    (hGet : C.Get r.Client ctx request.NamespacedName w.cluster = Except.ok inst)
    (hLive : inst.ObjectMeta.DeletionTimestamp = none)
    (hClient : C.NewForConfig r.Config = Except.ok kubeClient) :
    (∀ s₁ e, C.gatewayEnsure (UpdaterFromControllerClient r.Client) w.cluster = (s₁, some e) →
      (Reconcile C r ctx request w).err = some e ∧
      (Reconcile C r ctx request w).result = {} ∧
      (Reconcile C r ctx request w).world.cluster = s₁ ∧
      (Reconcile C r ctx request w).world.calls = w.calls ++
        [Call.Get r.Client ctx request.NamespacedName, Call.NewForConfig r.Config,
         Call.gatewayEnsure (UpdaterFromControllerClient r.Client)]) ∧
    (∀ s₁ s₂ b e,
      C.gatewayEnsure (UpdaterFromControllerClient r.Client) w.cluster = (s₁, none) →
      C.lighthouseEnsure (UpdaterFromControllerClient r.Client) Role.BrokerCluster s₁
        = (s₂, b, some e) →
      (Reconcile C r ctx request w).err = some e ∧
      (Reconcile C r ctx request w).result = {} ∧
      (Reconcile C r ctx request w).world.cluster = s₂ ∧
      (Reconcile C r ctx request w).world.calls = w.calls ++
        [Call.Get r.Client ctx request.NamespacedName, Call.NewForConfig r.Config,
         Call.gatewayEnsure (UpdaterFromControllerClient r.Client),
         Call.lighthouseEnsure (UpdaterFromControllerClient r.Client) Role.BrokerCluster]) ∧
    (∀ s₁ s₂ b s₃ e,
      C.gatewayEnsure (UpdaterFromControllerClient r.Client) w.cluster = (s₁, none) →
      C.lighthouseEnsure (UpdaterFromControllerClient r.Client) Role.BrokerCluster s₁
        = (s₂, b, none) →
      C.ValidateExistingGlobalNetworks kubeClient request.NamespacedName.Namespace s₂
        = (s₃, some e) →
      (Reconcile C r ctx request w).err = some e ∧
      (Reconcile C r ctx request w).result = {} ∧
      (Reconcile C r ctx request w).world.cluster = s₃ ∧
      (Reconcile C r ctx request w).world.calls = w.calls ++
        [Call.Get r.Client ctx request.NamespacedName, Call.NewForConfig r.Config,
         Call.gatewayEnsure (UpdaterFromControllerClient r.Client),
         Call.lighthouseEnsure (UpdaterFromControllerClient r.Client) Role.BrokerCluster,
         Call.ValidateExistingGlobalNetworks kubeClient request.NamespacedName.Namespace]) ∧
    (∀ s₁ s₂ b s₃ s₄ e,
      C.gatewayEnsure (UpdaterFromControllerClient r.Client) w.cluster = (s₁, none) →
      C.lighthouseEnsure (UpdaterFromControllerClient r.Client) Role.BrokerCluster s₁
        = (s₂, b, none) →
      C.ValidateExistingGlobalNetworks kubeClient request.NamespacedName.Namespace s₂
        = (s₃, none) →
      C.CreateConfigMap kubeClient inst.Spec.GlobalnetEnabled inst.Spec.GlobalnetCIDRRange
        inst.Spec.DefaultGlobalnetClusterSize request.NamespacedName.Namespace s₃
        = (s₄, some e) →
      (Reconcile C r ctx request w).err = some e ∧
      (Reconcile C r ctx request w).result = {} ∧
      (Reconcile C r ctx request w).world.cluster = s₄ ∧
      (Reconcile C r ctx request w).world.calls = w.calls ++
        [Call.Get r.Client ctx request.NamespacedName, Call.NewForConfig r.Config,
         Call.gatewayEnsure (UpdaterFromControllerClient r.Client),
         Call.lighthouseEnsure (UpdaterFromControllerClient r.Client) Role.BrokerCluster,
         Call.ValidateExistingGlobalNetworks kubeClient request.NamespacedName.Namespace,
         Call.CreateConfigMap kubeClient inst.Spec.GlobalnetEnabled inst.Spec.GlobalnetCIDRRange
           inst.Spec.DefaultGlobalnetClusterSize request.NamespacedName.Namespace]) := by
  refine ⟨?_, ?_, ?_, ?_⟩
  · intro s₁ e h₁
    simp [Reconcile, World.record, World.setCluster, hGet, hLive, hClient, h₁]
  · intro s₁ s₂ b e h₁ h₂
    simp [Reconcile, World.record, World.setCluster, hGet, hLive, hClient, h₁, h₂]
  · intro s₁ s₂ b s₃ e h₁ h₂ h₃
    simp [Reconcile, World.record, World.setCluster, hGet, hLive, hClient, h₁, h₂, h₃]
  · intro s₁ s₂ b s₃ s₄ e h₁ h₂ h₃ h₄
    simp [Reconcile, World.record, World.setCluster, hGet, hLive, hClient, h₁, h₂, h₃, h₄]

/-- C1 at a concrete input: lighthouse.Ensure fails while the two globalnet
steps are set to fail as well; only the gateway and lighthouse steps are
logged, and the error is the one lighthouse.Ensure reported. -/
theorem reconcile_ordered_short_circuit_witness :
    (Reconcile (scripted (Except.ok demoBroker) false (Except.ok demoClientset)
        none boom (GoError.leaf "invalid") (GoError.leaf "conflict"))
        demoReconciler demoContext demoRequest emptyWorld).err = some boom ∧
    (Reconcile (scripted (Except.ok demoBroker) false (Except.ok demoClientset)
        none boom (GoError.leaf "invalid") (GoError.leaf "conflict"))
        demoReconciler demoContext demoRequest emptyWorld).world.calls
      = [Call.Get ⟨1⟩ demoContext demoRequest.NamespacedName, Call.NewForConfig ⟨3⟩,
         Call.gatewayEnsure ⟨⟨1⟩⟩, Call.lighthouseEnsure ⟨⟨1⟩⟩ Role.BrokerCluster] :=
  have h := (reconcile_ordered_short_circuit
    (scripted (Except.ok demoBroker) false (Except.ok demoClientset)
      none boom (GoError.leaf "invalid") (GoError.leaf "conflict"))
    demoReconciler demoContext demoRequest emptyWorld demoBroker demoClientset
    rfl rfl rfl).2.1 [1] [1, 2] true boom rfl rfl
  ⟨h.1, h.2.2.2⟩

/-- C3 (full success path): on a Broker fetched without a deletion marker,
when the client is constructed and all four ensure steps succeed, Reconcile
returns Done and the calls it made are, in this order and once each:
gateway.Ensure, lighthouse.Ensure with role BrokerCluster,
ValidateExistingGlobalNetworks with the request namespace, CreateConfigMap with
the Broker's GlobalnetEnabled, GlobalnetCIDRRange, DefaultGlobalnetClusterSize
and the request namespace (after the `Get` and the `NewForConfig`). -/
theorem reconcile_full_success {σ : Type} (C : Collaborators σ) (r : BrokerReconciler)
    (ctx : Context) (request : Request) (w : World σ) (inst : Broker) (kubeClient : Clientset)
    (s₁ s₂ s₃ s₄ : σ) (b : Bool)
    (hGet : C.Get r.Client ctx request.NamespacedName w.cluster = Except.ok inst)
    (hLive : inst.ObjectMeta.DeletionTimestamp = none)
    (hClient : C.NewForConfig r.Config = Except.ok kubeClient)
    (h₁ : C.gatewayEnsure (UpdaterFromControllerClient r.Client) w.cluster = (s₁, none))
    (h₂ : C.lighthouseEnsure (UpdaterFromControllerClient r.Client) Role.BrokerCluster s₁
      = (s₂, b, none))
    (h₃ : C.ValidateExistingGlobalNetworks kubeClient request.NamespacedName.Namespace s₂
      = (s₃, none))
    (h₄ : C.CreateConfigMap kubeClient inst.Spec.GlobalnetEnabled inst.Spec.GlobalnetCIDRRange
      inst.Spec.DefaultGlobalnetClusterSize request.NamespacedName.Namespace s₃ = (s₄, none)) :
    (Reconcile C r ctx request w).Done ∧
    (Reconcile C r ctx request w).world.cluster = s₄ ∧
    (Reconcile C r ctx request w).world.calls = w.calls ++
      [Call.Get r.Client ctx request.NamespacedName, Call.NewForConfig r.Config,
       Call.gatewayEnsure (UpdaterFromControllerClient r.Client),
       Call.lighthouseEnsure (UpdaterFromControllerClient r.Client) Role.BrokerCluster,
       Call.ValidateExistingGlobalNetworks kubeClient request.NamespacedName.Namespace,
       Call.CreateConfigMap kubeClient inst.Spec.GlobalnetEnabled inst.Spec.GlobalnetCIDRRange
         inst.Spec.DefaultGlobalnetClusterSize request.NamespacedName.Namespace] ∧
    (Reconcile C r ctx request w).world.calls.filter Call.isEnsureStep
      = w.calls.filter Call.isEnsureStep ++
      [Call.gatewayEnsure (UpdaterFromControllerClient r.Client),
       Call.lighthouseEnsure (UpdaterFromControllerClient r.Client) Role.BrokerCluster,
       Call.ValidateExistingGlobalNetworks kubeClient request.NamespacedName.Namespace,
       Call.CreateConfigMap kubeClient inst.Spec.GlobalnetEnabled inst.Spec.GlobalnetCIDRRange
         inst.Spec.DefaultGlobalnetClusterSize request.NamespacedName.Namespace] := by
  simp [Reconcile, World.record, World.setCluster, Outcome.Done, Call.isEnsureStep, hGet, hLive,
    hClient, h₁, h₂, h₃, h₄]

/-- C3 at the scenario of the spec: globalnetEnabled = true,
globalnetCIDRRange = "242.0.0.0/16", defaultGlobalnetClusterSize = 0. -/
theorem reconcile_full_success_witness :
    (Reconcile (scripted (Except.ok demoBroker) false (Except.ok demoClientset)
        none none none none) demoReconciler demoContext demoRequest emptyWorld).Done ∧
    (Reconcile (scripted (Except.ok demoBroker) false (Except.ok demoClientset)
        none none none none) demoReconciler demoContext demoRequest emptyWorld).world.calls
      = [Call.Get ⟨1⟩ demoContext ⟨"submariner-k8s-broker", "broker"⟩, Call.NewForConfig ⟨3⟩,
         Call.gatewayEnsure ⟨⟨1⟩⟩, Call.lighthouseEnsure ⟨⟨1⟩⟩ Role.BrokerCluster,
         Call.ValidateExistingGlobalNetworks demoClientset "submariner-k8s-broker",
         Call.CreateConfigMap demoClientset true "242.0.0.0/16" 0 "submariner-k8s-broker"] :=
  have h := reconcile_full_success
    (scripted (Except.ok demoBroker) false (Except.ok demoClientset) none none none none)
    demoReconciler demoContext demoRequest emptyWorld demoBroker demoClientset
    [1] [1, 2] [1, 2, 3] [1, 2, 3, 4] true rfl rfl rfl rfl rfl rfl rfl
  ⟨h.1, h.2.2.1⟩

/-- C10 (exact characterisation of success): the error of Reconcile is nil
exactly when the fetch reports NotFound, or the fetched Broker has a deletion
marker, or the Broker is live, the client is constructed and the four ensure
steps succeed one after the other; and on every path the Result is the empty
one (Requeue false, RequeueAfter zero). -/
theorem reconcile_success_iff {σ : Type} (C : Collaborators σ) (r : BrokerReconciler)
    (ctx : Context) (request : Request) (w : World σ) :
    ((Reconcile C r ctx request w).err = none ↔
      (∃ e, C.Get r.Client ctx request.NamespacedName w.cluster = Except.error e ∧
        C.IsNotFound e = true) ∨
      (∃ inst, C.Get r.Client ctx request.NamespacedName w.cluster = Except.ok inst ∧
        inst.ObjectMeta.DeletionTimestamp ≠ none) ∨
      (∃ inst kubeClient s₁ s₂ b s₃ s₄,
        C.Get r.Client ctx request.NamespacedName w.cluster = Except.ok inst ∧
        inst.ObjectMeta.DeletionTimestamp = none ∧
        C.NewForConfig r.Config = Except.ok kubeClient ∧
        C.gatewayEnsure (UpdaterFromControllerClient r.Client) w.cluster = (s₁, none) ∧
        C.lighthouseEnsure (UpdaterFromControllerClient r.Client) Role.BrokerCluster s₁
          = (s₂, b, none) ∧
        C.ValidateExistingGlobalNetworks kubeClient request.NamespacedName.Namespace s₂
          = (s₃, none) ∧
        C.CreateConfigMap kubeClient inst.Spec.GlobalnetEnabled inst.Spec.GlobalnetCIDRRange
          inst.Spec.DefaultGlobalnetClusterSize request.NamespacedName.Namespace s₃
          = (s₄, none))) ∧
    (Reconcile C r ctx request w).result = {} ∧
    (Reconcile C r ctx request w).result.Requeue = false ∧
    (Reconcile C r ctx request w).result.RequeueAfter = 0 := by
  cases hG : C.Get r.Client ctx request.NamespacedName w.cluster with
  | error e =>
    cases hN : C.IsNotFound e <;> simp [Reconcile, World.record, Wrap, hG, hN]
  | ok inst =>
    by_cases hD : inst.ObjectMeta.DeletionTimestamp = none
    · cases hK : C.NewForConfig r.Config with
      | error e => simp [Reconcile, World.record, Wrap, hG, hD, hK]
      | ok k =>
        rcases h₁ : C.gatewayEnsure (UpdaterFromControllerClient r.Client) w.cluster
          with ⟨s₁, _ | e₁⟩
        · rcases h₂ : C.lighthouseEnsure (UpdaterFromControllerClient r.Client)
            Role.BrokerCluster s₁ with ⟨s₂, b, _ | e₂⟩
          · rcases h₃ : C.ValidateExistingGlobalNetworks k request.NamespacedName.Namespace s₂
              with ⟨s₃, _ | e₃⟩
            · rcases h₄ : C.CreateConfigMap k inst.Spec.GlobalnetEnabled
                inst.Spec.GlobalnetCIDRRange inst.Spec.DefaultGlobalnetClusterSize
                request.NamespacedName.Namespace s₃ with ⟨s₄, _ | e₄⟩
              · simp [Reconcile, World.record, World.setCluster, hG, hD, hK, h₁, h₂, h₃, h₄]
                refine ⟨s₂, ?_, s₃, h₃, s₄, h₄⟩
                cases b <;> simp
              · simp [Reconcile, World.record, World.setCluster, hG, hD, hK, h₁, h₂, h₃, h₄]
                rintro x (⟨rfl, -⟩ | ⟨rfl, -⟩) x₁ hx₁ x₂ hx₂ <;>
                  · rw [h₃] at hx₁
                    obtain rfl : s₃ = x₁ := by simpa using hx₁
                    rw [h₄] at hx₂
                    simp at hx₂
            · simp [Reconcile, World.record, World.setCluster, hG, hD, hK, h₁, h₂, h₃]
              rintro x (⟨rfl, -⟩ | ⟨rfl, -⟩) x₁ hx₁ <;>
                · rw [h₃] at hx₁
                  simp at hx₁
          · simp [Reconcile, World.record, World.setCluster, hG, hD, hK, h₁, h₂]
        · simp [Reconcile, World.record, World.setCluster, hG, hD, hK, h₁]
    · simp [Reconcile, World.record, hG, hD]

/-! ## Attribution of failures -/

/-- C7, as the code has it: a fetch failure is returned wrapped with the
context "error retrieving Broker resource" and a client-construction failure
wrapped with "error creating kube client"; for one and the same cause these two
returned errors differ from each other and from the bare cause.  A failure of
any of the four ensure steps is returned exactly as the step reported it:
Reconcile adds no context of its own. -/
theorem reconcile_attribution {σ : Type} (C : Collaborators σ) (r : BrokerReconciler)
    (ctx : Context) (request : Request) (w : World σ) :
    (∀ e, C.Get r.Client ctx request.NamespacedName w.cluster = Except.error e →
      C.IsNotFound e = false →
      (Reconcile C r ctx request w).err
        = some (GoError.withStack (GoError.withMessage e "error retrieving Broker resource"))) ∧
    (∀ inst e, C.Get r.Client ctx request.NamespacedName w.cluster = Except.ok inst →
      inst.ObjectMeta.DeletionTimestamp = none →
      C.NewForConfig r.Config = Except.error e →
      (Reconcile C r ctx request w).err
        = some (GoError.withStack (GoError.withMessage e "error creating kube client"))) ∧
    (∀ inst kubeClient s₁ s₂ b s₃ s₄ e,
      C.Get r.Client ctx request.NamespacedName w.cluster = Except.ok inst →
      inst.ObjectMeta.DeletionTimestamp = none →
      C.NewForConfig r.Config = Except.ok kubeClient →
      (C.gatewayEnsure (UpdaterFromControllerClient r.Client) w.cluster = (s₁, some e) ∨
       (C.gatewayEnsure (UpdaterFromControllerClient r.Client) w.cluster = (s₁, none) ∧
        C.lighthouseEnsure (UpdaterFromControllerClient r.Client) Role.BrokerCluster s₁
          = (s₂, b, some e)) ∨
       (C.gatewayEnsure (UpdaterFromControllerClient r.Client) w.cluster = (s₁, none) ∧
        C.lighthouseEnsure (UpdaterFromControllerClient r.Client) Role.BrokerCluster s₁
          = (s₂, b, none) ∧
        C.ValidateExistingGlobalNetworks kubeClient request.NamespacedName.Namespace s₂
          = (s₃, some e)) ∨
       (C.gatewayEnsure (UpdaterFromControllerClient r.Client) w.cluster = (s₁, none) ∧
        C.lighthouseEnsure (UpdaterFromControllerClient r.Client) Role.BrokerCluster s₁
          = (s₂, b, none) ∧
        C.ValidateExistingGlobalNetworks kubeClient request.NamespacedName.Namespace s₂
          = (s₃, none) ∧
        C.CreateConfigMap kubeClient inst.Spec.GlobalnetEnabled inst.Spec.GlobalnetCIDRRange
          inst.Spec.DefaultGlobalnetClusterSize request.NamespacedName.Namespace s₃
          = (s₄, some e))) →
      (Reconcile C r ctx request w).err = some e) ∧
    (∀ e : GoError,
      Wrap (some e) "error retrieving Broker resource"
        ≠ Wrap (some e) "error creating kube client" ∧
      Wrap (some e) "error retrieving Broker resource" ≠ some e ∧
      Wrap (some e) "error creating kube client" ≠ some e) := by
  refine ⟨?_, ?_, ?_, ?_⟩
  · intro e hG hN
    simp [Reconcile, World.record, Wrap, hG, hN]
  · intro inst e hG hD hK
    simp [Reconcile, World.record, Wrap, hG, hD, hK]
  · intro inst k s₁ s₂ b s₃ s₄ e hG hD hK h
    rcases h with h₁ | ⟨h₁, h₂⟩ | ⟨h₁, h₂, h₃⟩ | ⟨h₁, h₂, h₃, h₄⟩
    · simp [Reconcile, World.record, World.setCluster, hG, hD, hK, h₁]
    · simp [Reconcile, World.record, World.setCluster, hG, hD, hK, h₁, h₂]
    · simp [Reconcile, World.record, World.setCluster, hG, hD, hK, h₁, h₂, h₃]
    · simp [Reconcile, World.record, World.setCluster, hG, hD, hK, h₁, h₂, h₃, h₄]
  · intro e
    refine ⟨?_, ?_, ?_⟩
    · simp [Wrap]
    · intro h
      have := congrArg (Option.map sizeOf) h
      simp [Wrap] at this
      omega
    · intro h
      have := congrArg (Option.map sizeOf) h
      simp [Wrap] at this
      omega

/-- C7 fails as stated: with gateway.Ensure failing in one run and
lighthouse.Ensure failing in another, both with the same error, the two runs
stop at different steps and yet return the same error, which is the bare
error of the step with no context naming the step. -/
theorem reconcile_attribution_counterexample :
    (Reconcile (scripted (Except.ok demoBroker) false (Except.ok demoClientset)
        boom none none none) demoReconciler demoContext demoRequest emptyWorld).world.calls
      = [Call.Get ⟨1⟩ demoContext demoRequest.NamespacedName, Call.NewForConfig ⟨3⟩,
         Call.gatewayEnsure ⟨⟨1⟩⟩] ∧
    (Reconcile (scripted (Except.ok demoBroker) false (Except.ok demoClientset)
        none boom none none) demoReconciler demoContext demoRequest emptyWorld).world.calls
      = [Call.Get ⟨1⟩ demoContext demoRequest.NamespacedName, Call.NewForConfig ⟨3⟩,
         Call.gatewayEnsure ⟨⟨1⟩⟩, Call.lighthouseEnsure ⟨⟨1⟩⟩ Role.BrokerCluster] ∧
    (Reconcile (scripted (Except.ok demoBroker) false (Except.ok demoClientset)
        boom none none none) demoReconciler demoContext demoRequest emptyWorld).err
      = (Reconcile (scripted (Except.ok demoBroker) false (Except.ok demoClientset)
        none boom none none) demoReconciler demoContext demoRequest emptyWorld).err ∧
    (Reconcile (scripted (Except.ok demoBroker) false (Except.ok demoClientset)
        boom none none none) demoReconciler demoContext demoRequest emptyWorld).err
      = some (GoError.leaf "connection refused") :=
  ⟨rfl, rfl, rfl, rfl⟩

/-! ## Running Reconcile again -/

/-- The whole outcome of Reconcile on the path where every collaborator
succeeds, in terms of the four steps. -/
theorem reconcile_all_ok {σ : Type} (C : Collaborators σ) (r : BrokerReconciler)
    (ctx : Context) (request : Request) (w : World σ) (inst : Broker) (kubeClient : Clientset)
    (s₁ s₂ s₃ s₄ : σ)
    (hGet : C.Get r.Client ctx request.NamespacedName w.cluster = Except.ok inst)
    (hLive : inst.ObjectMeta.DeletionTimestamp = none)
    (hClient : C.NewForConfig r.Config = Except.ok kubeClient)
    (h₁ : gatewayStep C r w.cluster = (s₁, none))
    (h₂ : lighthouseStep C r s₁ = (s₂, none))
    (h₃ : validateStep C kubeClient request s₂ = (s₃, none))
    (h₄ : configMapStep C kubeClient inst request s₃ = (s₄, none)) :
    Reconcile C r ctx request w
      = ⟨⟨s₄, w.calls ++ ([Call.Get r.Client ctx request.NamespacedName,
            Call.NewForConfig r.Config] ++ ensureCalls r kubeClient inst request)⟩,
          r, {}, none⟩ := by
  rcases hl : C.lighthouseEnsure (UpdaterFromControllerClient r.Client) Role.BrokerCluster s₁
    with ⟨x, b, o⟩
  simp only [lighthouseStep, hl, Prod.mk.injEq] at h₂
  obtain ⟨rfl, rfl⟩ := h₂
  simp only [gatewayStep] at h₁
  simp only [validateStep] at h₃
  simp only [configMapStep] at h₄
  simp [Reconcile, World.record, World.setCluster, ensureCalls, hGet, hLive, hClient, h₁, hl,
    h₃, h₄]

/-- On a live Broker with the client constructed, the ensure calls Reconcile
logs are as many of the four, from the front, as there are step outcomes, and
its error is the last outcome. -/
theorem reconcile_live_script {σ : Type} (C : Collaborators σ) (r : BrokerReconciler)
    (ctx : Context) (request : Request) (w : World σ) (inst : Broker) (kubeClient : Clientset)
    (hGet : C.Get r.Client ctx request.NamespacedName w.cluster = Except.ok inst)
    (hLive : inst.ObjectMeta.DeletionTimestamp = none)
    (hClient : C.NewForConfig r.Config = Except.ok kubeClient) :
    (Reconcile C r ctx request w).world.calls
      = w.calls ++ ([Call.Get r.Client ctx request.NamespacedName, Call.NewForConfig r.Config]
        ++ (ensureCalls r kubeClient inst request).take
          (stepOutcomes (ensureSteps C r kubeClient inst request) w.cluster).length) ∧
    (Reconcile C r ctx request w).err
      = (stepOutcomes (ensureSteps C r kubeClient inst request) w.cluster).getLastD none ∧
    (Reconcile C r ctx request w).result = {} := by
  rcases h₁ : C.gatewayEnsure (UpdaterFromControllerClient r.Client) w.cluster
    with ⟨s₁, _ | e₁⟩
  · rcases h₂ : C.lighthouseEnsure (UpdaterFromControllerClient r.Client)
      Role.BrokerCluster s₁ with ⟨s₂, b, _ | e₂⟩
    · rcases h₃ : C.ValidateExistingGlobalNetworks kubeClient request.NamespacedName.Namespace s₂
        with ⟨s₃, _ | e₃⟩
      · rcases h₄ : C.CreateConfigMap kubeClient inst.Spec.GlobalnetEnabled
          inst.Spec.GlobalnetCIDRRange inst.Spec.DefaultGlobalnetClusterSize
          request.NamespacedName.Namespace s₃ with ⟨s₄, _ | e₄⟩
        · simp [Reconcile, World.record, World.setCluster, ensureCalls, ensureSteps,
            stepOutcomes, gatewayStep, lighthouseStep, validateStep, configMapStep, hGet, hLive,
            hClient, h₁, h₂, h₃, h₄]
        · simp [Reconcile, World.record, World.setCluster, ensureCalls, ensureSteps,
            stepOutcomes, gatewayStep, lighthouseStep, validateStep, configMapStep, hGet, hLive,
            hClient, h₁, h₂, h₃, h₄]
      · simp [Reconcile, World.record, World.setCluster, ensureCalls, ensureSteps,
          stepOutcomes, gatewayStep, lighthouseStep, validateStep, configMapStep, hGet, hLive,
          hClient, h₁, h₂, h₃]
    · simp [Reconcile, World.record, World.setCluster, ensureCalls, ensureSteps,
        stepOutcomes, gatewayStep, lighthouseStep, validateStep, configMapStep, hGet, hLive,
        hClient, h₁, h₂]
  · simp [Reconcile, World.record, World.setCluster, ensureCalls, ensureSteps,
      stepOutcomes, gatewayStep, lighthouseStep, validateStep, configMapStep, hGet, hLive,
      hClient, h₁]

/-- Reconcile hands back the receiver it was given. -/
theorem reconcile_receiver {σ : Type} (C : Collaborators σ) (r : BrokerReconciler)
    (ctx : Context) (request : Request) (w : World σ) :
    (Reconcile C r ctx request w).receiver = r := by
  simp only [Reconcile]
  repeat' (first | rfl | split)

/-- A converged lighthouse step, as a fact about `lighthouse.Ensure`. -/
theorem lighthouse_converged {σ : Type} (C : Collaborators σ) (r : BrokerReconciler) (s s₁ : σ)
    (h : lighthouseStep C r s = (s₁, none)) :
    ∃ b, C.lighthouseEnsure (UpdaterFromControllerClient r.Client) Role.BrokerCluster s
      = (s₁, b, none) := by
  rcases hl : C.lighthouseEnsure (UpdaterFromControllerClient r.Client) Role.BrokerCluster s
    with ⟨x, b, o⟩
  simp only [lighthouseStep, hl, Prod.mk.injEq] at h
  obtain ⟨rfl, rfl⟩ := h
  exact ⟨b, rfl⟩

/-- Create-or-no-op is idempotent. -/
theorem createIfAbsent_idempotent (i : Nat) : Idempotent (createIfAbsent i) := by
  intro s s₁ h
  simp only [createIfAbsent, Prod.mk.injEq, and_true] at h
  subst h
  by_cases hi : i ∈ s <;> simp [Converged, createIfAbsent, hi]

/-- Create-or-no-op of one resource keeps another create-or-no-op converged. -/
theorem createIfAbsent_keeps (i j : Nat) : Keeps (createIfAbsent i) (createIfAbsent j) := by
  intro s s₁ h hc
  simp only [createIfAbsent, Prod.mk.injEq, and_true] at h
  subst h
  have hi : i ∈ s := by
    by_contra hn
    simp [Converged, createIfAbsent, hn] at hc
  by_cases hj : j ∈ s <;> simp [Converged, createIfAbsent, hi, hj]

/-- C8, as the code has it: when each of the four ensure steps is idempotent
and, besides, a successful run of a later step keeps every earlier step
converged, and the fetch answers after the first run as it did before it (no
external change), then a second Reconcile of the same request run right after
a first one that returned Done also returns Done and leaves the cluster exactly
as the first run left it. -/
theorem reconcile_twice {σ : Type} (C : Collaborators σ) (r : BrokerReconciler)
    (ctx : Context) (request : Request) (w : World σ)
    (hIdem : ∀ k inst, ∀ f ∈ ensureSteps C r k inst request, Idempotent f)
    (hKeep : ∀ k inst, (ensureSteps C r k inst request).Pairwise (fun f g => Keeps f g))
    (hFetch : C.Get r.Client ctx request.NamespacedName (Reconcile C r ctx request w).world.cluster
      = C.Get r.Client ctx request.NamespacedName w.cluster)
    (hDone : (Reconcile C r ctx request w).Done) :
    (Reconcile C (Reconcile C r ctx request w).receiver ctx request
      (Reconcile C r ctx request w).world).Done ∧
    (Reconcile C (Reconcile C r ctx request w).receiver ctx request
      (Reconcile C r ctx request w).world).world.cluster
      = (Reconcile C r ctx request w).world.cluster := by
  cases hG : C.Get r.Client ctx request.NamespacedName w.cluster with
  | error e =>
    cases hN : C.IsNotFound e
    · simp [Outcome.Done, Reconcile, World.record, Wrap, hG, hN] at hDone
    · simp [Outcome.Done, Reconcile, World.record, hG, hN]
  | ok inst =>
    by_cases hD : inst.ObjectMeta.DeletionTimestamp = none
    · cases hK : C.NewForConfig r.Config with
      | error e => simp [Outcome.Done, Reconcile, World.record, Wrap, hG, hD, hK] at hDone
      | ok k =>
        have hScript := reconcile_live_script C r ctx request w inst k hG hD hK
        rcases h₁ : gatewayStep C r w.cluster with ⟨s₁, _ | e₁⟩
        · rcases h₂ : lighthouseStep C r s₁ with ⟨s₂, _ | e₂⟩
          · rcases h₃ : validateStep C k request s₂ with ⟨s₃, _ | e₃⟩
            · rcases h₄ : configMapStep C k inst request s₃ with ⟨s₄, _ | e₄⟩
              · have hI := hIdem k inst
                have hP := hKeep k inst
                simp only [ensureSteps, List.mem_cons, List.mem_singleton, forall_eq_or_imp,
                  forall_eq, List.pairwise_cons, List.not_mem_nil, false_implies, implies_true,
                  List.Pairwise.nil, and_true] at hI hP
                obtain ⟨ig, il, iv, ic⟩ := hI
                obtain ⟨⟨kgl, kgv, kgc⟩, ⟨klv, klc⟩, kvc⟩ := hP
                have c₁ : Converged (gatewayStep C r) s₄ :=
                  kgc _ _ h₄ (kgv _ _ h₃ (kgl _ _ h₂ (ig _ _ h₁)))
                have c₂ : Converged (lighthouseStep C r) s₄ :=
                  klc _ _ h₄ (klv _ _ h₃ (il _ _ h₂))
                have c₃ : Converged (validateStep C k request) s₄ := kvc _ _ h₄ (iv _ _ h₃)
                have c₄ : Converged (configMapStep C k inst request) s₄ := ic _ _ h₄
                have first := reconcile_all_ok C r ctx request w inst k s₁ s₂ s₃ s₄
                  hG hD hK h₁ h₂ h₃ h₄
                rw [first] at hFetch ⊢
                rw [hG] at hFetch
                have second := reconcile_all_ok C r ctx request
                  ⟨s₄, w.calls ++ ([Call.Get r.Client ctx request.NamespacedName,
                    Call.NewForConfig r.Config] ++ ensureCalls r k inst request)⟩
                  inst k s₄ s₄ s₄ s₄ hFetch hD hK c₁ c₂ c₃ c₄
                rw [second]
                exact ⟨⟨rfl, rfl⟩, rfl⟩
              · simp [Outcome.Done, hScript.2.1, ensureSteps, stepOutcomes, h₁, h₂, h₃, h₄]
                  at hDone
            · simp [Outcome.Done, hScript.2.1, ensureSteps, stepOutcomes, h₁, h₂, h₃] at hDone
          · simp [Outcome.Done, hScript.2.1, ensureSteps, stepOutcomes, h₁, h₂] at hDone
        · simp [Outcome.Done, hScript.2.1, ensureSteps, stepOutcomes, h₁] at hDone
    · simp [Outcome.Done, Reconcile, World.record, hG, hD]

/-- C8 (amended) at a concrete input: four create-or-no-op steps on an empty
cluster. -/
theorem reconcile_twice_witness :
    (Reconcile converging
      (Reconcile converging demoReconciler demoContext demoRequest emptyWorld).receiver
      demoContext demoRequest
      (Reconcile converging demoReconciler demoContext demoRequest emptyWorld).world).Done ∧
    (Reconcile converging
      (Reconcile converging demoReconciler demoContext demoRequest emptyWorld).receiver
      demoContext demoRequest
      (Reconcile converging demoReconciler demoContext demoRequest emptyWorld).world).world.cluster
      = (Reconcile converging demoReconciler demoContext demoRequest emptyWorld).world.cluster :=
  reconcile_twice converging demoReconciler demoContext demoRequest emptyWorld
    (by
      intro k inst f hf
      simp only [ensureSteps, List.mem_cons, List.mem_singleton, List.not_mem_nil,
        or_false] at hf
      rcases hf with rfl | rfl | rfl | rfl
      · exact createIfAbsent_idempotent 1
      · exact createIfAbsent_idempotent 2
      · exact createIfAbsent_idempotent 3
      · exact createIfAbsent_idempotent 4)
    (by
      intro k inst
      simp only [ensureSteps, List.pairwise_cons, List.mem_cons, List.mem_singleton,
        forall_eq_or_imp, forall_eq, List.not_mem_nil, false_implies, implies_true,
        List.Pairwise.nil, and_true]
      exact ⟨⟨createIfAbsent_keeps 1 2, createIfAbsent_keeps 1 3, createIfAbsent_keeps 1 4⟩,
        ⟨createIfAbsent_keeps 2 3, createIfAbsent_keeps 2 4⟩, createIfAbsent_keeps 3 4⟩)
    rfl ⟨rfl, rfl⟩

/-- C8 fails as stated: the four steps of `clashing` never fail and each is
idempotent, the first Reconcile returns Done and so does the second, yet the
second run does not leave the cluster as the first run left it (one resource
after the first run, two after the second). -/
theorem reconcile_idempotence_counterexample :
    (∀ k inst, ∀ f ∈ ensureSteps clashing demoReconciler k inst demoRequest,
      Idempotent f ∧ ∀ s, (f s).2 = none) ∧
    (Reconcile clashing demoReconciler demoContext demoRequest ⟨(false, 0), []⟩).Done ∧
    (Reconcile clashing demoReconciler demoContext demoRequest ⟨(false, 0), []⟩).world.cluster
      = (true, 1) ∧
    (Reconcile clashing
      (Reconcile clashing demoReconciler demoContext demoRequest ⟨(false, 0), []⟩).receiver
      demoContext demoRequest
      (Reconcile clashing demoReconciler demoContext demoRequest ⟨(false, 0), []⟩).world
      ).Done ∧
    (Reconcile clashing
      (Reconcile clashing demoReconciler demoContext demoRequest ⟨(false, 0), []⟩).receiver
      demoContext demoRequest
      (Reconcile clashing demoReconciler demoContext demoRequest ⟨(false, 0), []⟩).world
      ).world.cluster = (true, 2) ∧
    (Reconcile clashing
      (Reconcile clashing demoReconciler demoContext demoRequest ⟨(false, 0), []⟩).receiver
      demoContext demoRequest
      (Reconcile clashing demoReconciler demoContext demoRequest ⟨(false, 0), []⟩).world
      ).world.cluster
      ≠ (Reconcile clashing demoReconciler demoContext demoRequest ⟨(false, 0), []⟩
        ).world.cluster := by
  refine ⟨?_, ⟨rfl, rfl⟩, rfl, ⟨rfl, rfl⟩, rfl, by decide⟩
  intro k inst f hf
  simp only [ensureSteps, List.mem_cons, List.mem_singleton, List.not_mem_nil, or_false] at hf
  rcases hf with rfl | rfl | rfl | rfl
  · refine ⟨?_, fun s => rfl⟩
    intro s s₁ h
    simp only [gatewayStep, clashing, Prod.mk.injEq, and_true] at h
    subst h
    rfl
  · refine ⟨?_, fun s => rfl⟩
    rintro ⟨a, n⟩ s₁ h
    simp only [lighthouseStep, clashing, Prod.mk.injEq, and_true] at h
    subst h
    cases a <;> simp [Converged, lighthouseStep, clashing]
  · refine ⟨?_, fun s => rfl⟩
    intro s s₁ h
    simp only [validateStep, clashing, Prod.mk.injEq, and_true] at h
    subst h
    rfl
  · refine ⟨?_, fun s => rfl⟩
    intro s s₁ h
    simp only [configMapStep, clashing, Prod.mk.injEq, and_true] at h
    subst h
    rfl

/-! ## Statelessness -/

/-- C9 (statelessness): Reconcile hands back its receiver with every field
as it was; two runs for the same request whose collaborators hand over the
same outcomes (fetch result and its NotFound classification, client
construction result, errors of the ensure steps that run) make the same calls
and return the same Result and error, whatever the earlier call history and
the cluster state of either run; and a run that follows a fully successful
run, when its collaborators succeed again, makes the `Get`, the `NewForConfig`
and all four ensure calls again. -/
theorem reconcile_stateless {σ : Type} (C₁ C₂ : Collaborators σ) (r : BrokerReconciler)
    (ctx : Context) (request : Request) (w₁ w₂ : World σ)
    (hFetch : C₁.Get r.Client ctx request.NamespacedName w₁.cluster
      = C₂.Get r.Client ctx request.NamespacedName w₂.cluster)
    (hClass : ∀ e, C₁.Get r.Client ctx request.NamespacedName w₁.cluster = Except.error e →
      C₁.IsNotFound e = C₂.IsNotFound e)
    (hClient : C₁.NewForConfig r.Config = C₂.NewForConfig r.Config)
    (hSteps : ∀ k inst, C₁.Get r.Client ctx request.NamespacedName w₁.cluster = Except.ok inst →
      C₁.NewForConfig r.Config = Except.ok k →
      stepOutcomes (ensureSteps C₁ r k inst request) w₁.cluster
        = stepOutcomes (ensureSteps C₂ r k inst request) w₂.cluster) :
    (Reconcile C₁ r ctx request w₁).receiver = r ∧
    (Reconcile C₂ r ctx request w₂).receiver = r ∧
    (∃ made, (Reconcile C₁ r ctx request w₁).world.calls = w₁.calls ++ made ∧
      (Reconcile C₂ r ctx request w₂).world.calls = w₂.calls ++ made) ∧
    (Reconcile C₁ r ctx request w₁).result = (Reconcile C₂ r ctx request w₂).result ∧
    (Reconcile C₁ r ctx request w₁).err = (Reconcile C₂ r ctx request w₂).err ∧
    (∀ inst k s₁ s₂ s₃ s₄ inst₂ t₁ t₂ t₃ t₄,
      C₁.Get r.Client ctx request.NamespacedName w₁.cluster = Except.ok inst →
      inst.ObjectMeta.DeletionTimestamp = none →
      C₁.NewForConfig r.Config = Except.ok k →
      gatewayStep C₁ r w₁.cluster = (s₁, none) →
      lighthouseStep C₁ r s₁ = (s₂, none) →
      validateStep C₁ k request s₂ = (s₃, none) →
      configMapStep C₁ k inst request s₃ = (s₄, none) →
      C₁.Get r.Client ctx request.NamespacedName s₄ = Except.ok inst₂ →
      inst₂.ObjectMeta.DeletionTimestamp = none →
      gatewayStep C₁ r s₄ = (t₁, none) →
      lighthouseStep C₁ r t₁ = (t₂, none) →
      validateStep C₁ k request t₂ = (t₃, none) →
      configMapStep C₁ k inst₂ request t₃ = (t₄, none) →
      (Reconcile C₁ (Reconcile C₁ r ctx request w₁).receiver ctx request
        (Reconcile C₁ r ctx request w₁).world).world.calls
        = (Reconcile C₁ r ctx request w₁).world.calls ++
          ([Call.Get r.Client ctx request.NamespacedName, Call.NewForConfig r.Config]
            ++ ensureCalls r k inst₂ request)) := by
  refine ⟨reconcile_receiver C₁ r ctx request w₁, reconcile_receiver C₂ r ctx request w₂, ?_⟩
  have rerun : ∀ inst k s₁ s₂ s₃ s₄ inst₂ t₁ t₂ t₃ t₄,
      C₁.Get r.Client ctx request.NamespacedName w₁.cluster = Except.ok inst →
      inst.ObjectMeta.DeletionTimestamp = none →
      C₁.NewForConfig r.Config = Except.ok k →
      gatewayStep C₁ r w₁.cluster = (s₁, none) →
      lighthouseStep C₁ r s₁ = (s₂, none) →
      validateStep C₁ k request s₂ = (s₃, none) →
      configMapStep C₁ k inst request s₃ = (s₄, none) →
      C₁.Get r.Client ctx request.NamespacedName s₄ = Except.ok inst₂ →
      inst₂.ObjectMeta.DeletionTimestamp = none →
      gatewayStep C₁ r s₄ = (t₁, none) →
      lighthouseStep C₁ r t₁ = (t₂, none) →
      validateStep C₁ k request t₂ = (t₃, none) →
      configMapStep C₁ k inst₂ request t₃ = (t₄, none) →
      (Reconcile C₁ (Reconcile C₁ r ctx request w₁).receiver ctx request
        (Reconcile C₁ r ctx request w₁).world).world.calls
        = (Reconcile C₁ r ctx request w₁).world.calls ++
          ([Call.Get r.Client ctx request.NamespacedName, Call.NewForConfig r.Config]
            ++ ensureCalls r k inst₂ request) := by
    intro inst k s₁ s₂ s₃ s₄ inst₂ t₁ t₂ t₃ t₄ hG hD hK h₁ h₂ h₃ h₄ hG₂ hD₂ g₁ g₂ g₃ g₄
    rw [reconcile_all_ok C₁ r ctx request w₁ inst k s₁ s₂ s₃ s₄ hG hD hK h₁ h₂ h₃ h₄]
    rw [reconcile_all_ok C₁ r ctx request _ inst₂ k t₁ t₂ t₃ t₄ hG₂ hD₂ hK g₁ g₂ g₃ g₄]
  have main : (∃ made, (Reconcile C₁ r ctx request w₁).world.calls = w₁.calls ++ made ∧
      (Reconcile C₂ r ctx request w₂).world.calls = w₂.calls ++ made) ∧
      (Reconcile C₁ r ctx request w₁).result = (Reconcile C₂ r ctx request w₂).result ∧
      (Reconcile C₁ r ctx request w₁).err = (Reconcile C₂ r ctx request w₂).err := by
    cases hG : C₁.Get r.Client ctx request.NamespacedName w₁.cluster with
    | error e =>
      have hG₂ := hFetch.symm.trans hG
      have hN := hClass e hG
      cases hN₁ : C₁.IsNotFound e
      · have hN₂ : C₂.IsNotFound e = false := hN ▸ hN₁
        refine ⟨⟨[Call.Get r.Client ctx request.NamespacedName], ?_, ?_⟩, ?_, ?_⟩ <;>
          simp [Reconcile, World.record, hG, hG₂, hN₁, hN₂]
      · have hN₂ : C₂.IsNotFound e = true := hN ▸ hN₁
        refine ⟨⟨[Call.Get r.Client ctx request.NamespacedName], ?_, ?_⟩, ?_, ?_⟩ <;>
          simp [Reconcile, World.record, hG, hG₂, hN₁, hN₂]
    | ok inst =>
      have hG₂ := hFetch.symm.trans hG
      by_cases hD : inst.ObjectMeta.DeletionTimestamp = none
      · cases hK : C₁.NewForConfig r.Config with
        | error e =>
          have hK₂ := hClient.symm.trans hK
          refine ⟨⟨[Call.Get r.Client ctx request.NamespacedName, Call.NewForConfig r.Config],
            ?_, ?_⟩, ?_, ?_⟩ <;>
            simp [Reconcile, World.record, hG, hG₂, hD, hK, hK₂]
        | ok k =>
          have hK₂ := hClient.symm.trans hK
          have a := reconcile_live_script C₁ r ctx request w₁ inst k hG hD hK
          have b := reconcile_live_script C₂ r ctx request w₂ inst k hG₂ hD hK₂
          have hS := hSteps k inst hG hK
          rw [← hS] at b
          exact ⟨⟨_, a.1, b.1⟩, a.2.2.trans b.2.2.symm, a.2.1.trans b.2.1.symm⟩
      · refine ⟨⟨[Call.Get r.Client ctx request.NamespacedName], ?_, ?_⟩, ?_, ?_⟩ <;>
          simp [Reconcile, World.record, hG, hG₂, hD]
  exact ⟨main.1, main.2.1, main.2.2, rerun⟩

/-- C9 at a concrete input: the same scripted outcomes, once on an empty
world and once on a world with an earlier history and another cluster state:
the same three calls are made and the same error is returned. -/
theorem reconcile_stateless_witness :
    (Reconcile (scripted (Except.ok demoBroker) false (Except.ok demoClientset)
        boom none none none) demoReconciler demoContext demoRequest emptyWorld).receiver
      = demoReconciler ∧
    (∃ made,
      (Reconcile (scripted (Except.ok demoBroker) false (Except.ok demoClientset)
        boom none none none) demoReconciler demoContext demoRequest emptyWorld).world.calls
        = [] ++ made ∧
      (Reconcile (scripted (Except.ok demoBroker) false (Except.ok demoClientset)
        boom none none none) demoReconciler demoContext demoRequest
        ⟨[1, 2, 3, 4], [Call.gatewayEnsure ⟨⟨1⟩⟩]⟩).world.calls
        = [Call.gatewayEnsure ⟨⟨1⟩⟩] ++ made) ∧
    (Reconcile (scripted (Except.ok demoBroker) false (Except.ok demoClientset)
        boom none none none) demoReconciler demoContext demoRequest emptyWorld).err
      = (Reconcile (scripted (Except.ok demoBroker) false (Except.ok demoClientset)
        boom none none none) demoReconciler demoContext demoRequest
        ⟨[1, 2, 3, 4], [Call.gatewayEnsure ⟨⟨1⟩⟩]⟩).err :=
  have h := reconcile_stateless
    (scripted (Except.ok demoBroker) false (Except.ok demoClientset) boom none none none)
    (scripted (Except.ok demoBroker) false (Except.ok demoClientset) boom none none none)
    demoReconciler demoContext demoRequest emptyWorld ⟨[1, 2, 3, 4], [Call.gatewayEnsure ⟨⟨1⟩⟩]⟩
    rfl (fun _ _ => rfl) rfl (fun _ _ _ _ => rfl)
  ⟨h.1, h.2.2.1, h.2.2.2.2.1⟩

end BrokerController
